import Mathlib

/-!
Verification of the Conversation Memory & Session Store of the
character-ai-chatbot backend.

The Python source (`backend/services/session_manager.py`,
`backend/services/memory_manager.py`, `backend/services/vllm_client.py`)
is shallowly embedded below.  The SQLite database is modelled as explicit
lists of rows kept in insertion order; `AUTOINCREMENT` message ids are a
global `nextMessageId` counter; timestamps (`datetime.now()`) are passed
in explicitly as natural numbers.  A SQL `ORDER BY <key>` names a single
sort key, so it is modelled as a stable sort on that key: rows whose keys
are equal keep their table (insertion) order, the conservative reading of
the unspecified tie order.  Fallible external calls (the summarizer LLM
call, the chat model call) are modelled as functions returning `Option`,
`none` standing for a raised exception.
-/

namespace ChatBot

/-- A row of the `messages` table
(`session_manager.py`, CREATE TABLE messages). -/
structure MessageRow where
  id : Nat
  session_id : String
  role : String
  content : String
  emotion_tag : Option String
  saturation_tag : Option String
  created_at : Nat
deriving Repr, DecidableEq

/-- A row of the `sessions` table
(`session_manager.py`, CREATE TABLE sessions). -/
structure SessionRow where
  id : String
  created_at : Nat
  last_message_at : Option Nat
  summary : Option String
deriving Repr, DecidableEq

/-- The SQLite database state: both tables in insertion order plus the
`AUTOINCREMENT` counter for message ids. -/
structure DB where
  sessions : List SessionRow
  messages : List MessageRow
  nextMessageId : Nat
deriving Repr, DecidableEq

/-! ### Stable sorting, the model of SQL `ORDER BY` on one key -/

/-- Stable insertion (ascending by `key`): the inserted element precedes
every element with a key `≥` its own, so earlier rows stay first among
equal keys. -/
def insertAscBy (key : α → Nat) (x : α) : List α → List α
  | [] => [x]
  | y :: ys => if key x ≤ key y then x :: y :: ys else y :: insertAscBy key x ys

/-- Stable sort ascending by `key`; models `ORDER BY key ASC`. -/
def sortAscBy (key : α → Nat) : List α → List α
  | [] => []
  | x :: xs => insertAscBy key x (sortAscBy key xs)

/-- Stable insertion (descending by `key`). -/
def insertDescBy (key : α → Nat) (x : α) : List α → List α
  | [] => [x]
  | y :: ys => if key y ≤ key x then x :: y :: ys else y :: insertDescBy key x ys

/-- Stable sort descending by `key`; models `ORDER BY key DESC`. -/
def sortDescBy (key : α → Nat) : List α → List α
  | [] => []
  | x :: xs => insertDescBy key x (sortDescBy key xs)

/-! ### SessionManager (session_manager.py) -/

/-- The rows of `messages` belonging to one session, in insertion order
(`WHERE session_id = ?`). -/
def messagesOf (db : DB) (sid : String) : List MessageRow :=
  db.messages.filter (fun m => m.session_id == sid)

/-- `SessionManager.get_message_count`: `SELECT COUNT(*) FROM messages
WHERE session_id = ?`. -/
def get_message_count (db : DB) (sid : String) : Nat :=
  (messagesOf db sid).length

/-- `SessionManager.session_exists`: `SELECT 1 FROM sessions WHERE id = ?`
is non-empty. -/
def session_exists (db : DB) (sid : String) : Bool :=
  db.sessions.any (fun s => s.id == sid)

/-- `SessionManager.create_session`: insert a fresh row and return its id.
The `uuid.uuid4()` value is passed in as `newId`, `datetime.now()` as
`now`. -/
def create_session (db : DB) (newId : String) (now : Nat) : String × DB :=
  (newId,
   { db with
     sessions := db.sessions ++
       [{ id := newId, created_at := now, last_message_at := none, summary := none }] })

/-- `SessionManager.add_message`: insert a message row (id from the
autoincrement counter) and set the session's `last_message_at`.  SQLite
foreign keys are off by default, so the insert succeeds even for a
non-existent session id. -/
def add_message (db : DB) (sid role content : String)
    (emotion_tag saturation_tag : Option String) (now : Nat) : DB :=
  { db with
    messages := db.messages ++
      [{ id := db.nextMessageId, session_id := sid, role := role, content := content,
         emotion_tag := emotion_tag, saturation_tag := saturation_tag, created_at := now }],
    nextMessageId := db.nextMessageId + 1,
    sessions := db.sessions.map
      (fun s => if s.id == sid then { s with last_message_at := some now } else s) }

/-- `SessionManager.get_messages`.  Python's `if limit:` is truthy, so
`limit=None` and `limit=0` both take the unlimited branch.  The limited
branch is the SQL `SELECT * FROM (SELECT ... ORDER BY created_at DESC
LIMIT ? OFFSET ?) ORDER BY created_at ASC`. -/
def get_messages (db : DB) (sid : String) (limit : Option Nat) (offset : Nat) :
    List MessageRow :=
  match limit with
  | some n =>
    if n ≠ 0 then
      sortAscBy MessageRow.created_at
        (((sortDescBy MessageRow.created_at (messagesOf db sid)).drop offset).take n)
    else
      sortAscBy MessageRow.created_at (messagesOf db sid)
  | none => sortAscBy MessageRow.created_at (messagesOf db sid)

/-- `SessionManager.delete_session`: delete the session's messages, then
the session row; returns whether the session-row delete removed
anything (`cursor.rowcount > 0`). -/
def delete_session (db : DB) (sid : String) : Bool × DB :=
  (db.sessions.any (fun s => s.id == sid),
   { db with
     messages := db.messages.filter (fun m => !(m.session_id == sid)),
     sessions := db.sessions.filter (fun s => !(s.id == sid)) })

/-- `SessionManager.update_summary`: `UPDATE sessions SET summary = ?
WHERE id = ?`.  An UPDATE matching no row is not an error in SQLite, so
the operation is total. -/
def update_summary (db : DB) (sid : String) (text : String) : DB :=
  { db with
    sessions := db.sessions.map
      (fun s => if s.id == sid then { s with summary := some text } else s) }

/-- `SessionManager.get_summary`: `SELECT summary FROM sessions WHERE
id = ?`; `None` both when the row is missing and when its summary is
NULL. -/
def get_summary (db : DB) (sid : String) : Option String :=
  match db.sessions.find? (fun s => s.id == sid) with
  | some s => s.summary
  | none => none

/-- `SessionManager.get_old_messages_for_summary`: the messages older
than the trailing `keep_recent` window (`ORDER BY created_at ASC LIMIT
total - keep_recent`), or `[]` when the total does not exceed the
window. -/
def get_old_messages_for_summary (db : DB) (sid : String) (keep_recent : Nat) :
    List MessageRow :=
  let total := get_message_count db sid
  if total ≤ keep_recent then []
  else (sortAscBy MessageRow.created_at (messagesOf db sid)).take (total - keep_recent)

/-- SQL `COALESCE(last_message_at, created_at)`, the ordering key of
`list_sessions`. -/
def coalesceKey (s : SessionRow) : Nat :=
  s.last_message_at.getD s.created_at

/-- `SessionManager.list_sessions`: all sessions with their message
counts, ordered by `COALESCE(last_message_at, created_at) DESC` (no
further sort key appears in the query). -/
def list_sessions (db : DB) : List (SessionRow × Nat) :=
  (sortDescBy coalesceKey db.sessions).map (fun s => (s, get_message_count db s.id))

/-! ### MemoryManager (memory_manager.py) -/

/-- The `MAX_RECENT_MESSAGES` / `SUMMARIZE_THRESHOLD` settings read by
`MemoryManager.__init__` (config.py defaults: 10 and 20). -/
structure MMConfig where
  max_recent_messages : Nat
  summarize_threshold : Nat
deriving Repr, DecidableEq

/-- A LangChain message of the assembled prompt: `SystemMessage`,
`HumanMessage` or `AIMessage`. -/
inductive PromptMessage where
  | system (content : String)
  | human (content : String)
  | ai (content : String)
deriving Repr, DecidableEq

/-- The summarizer LLM call of `summarize_old_messages`
(`llm.ainvoke` + `.content`): text in, text out; `none` models a raised
exception. -/
def Summarizer : Type := String → Option String

/-- Python's `str.strip()`: drop leading and trailing whitespace. -/
def pyStrip (s : String) : String :=
  ⟨((s.data.dropWhile Char.isWhitespace).reverse.dropWhile Char.isWhitespace).reverse⟩

/-- `MemoryManager.get_or_create_session`: Python's `if session_id:` is
truthiness, so `None` and the empty string both create a new session;
a non-empty id is reused iff `session_exists`. -/
def get_or_create_session (db : DB) (session_id : Option String)
    (freshId : String) (now : Nat) : String × DB :=
  match session_id with
  | some sid =>
    if sid ≠ "" then
      if session_exists db sid then (sid, db) else create_session db freshId now
    else create_session db freshId now
  | none => create_session db freshId now

/-- `MemoryManager.should_summarize`: `message_count >= summarize_threshold`. -/
def should_summarize (cfg : MMConfig) (db : DB) (sid : String) : Bool :=
  cfg.summarize_threshold ≤ get_message_count db sid

/-- `MemoryManager._format_messages_for_summary`: optional
`[이전 요약]` block (present iff the existing summary is truthy, i.e.
non-`None` and non-empty), then the `[새로운 대화]` block with one
role-named line per message. -/
def format_messages_for_summary (msgs : List MessageRow)
    (existing_summary : Option String) : String :=
  let head : List String :=
    match existing_summary with
    | some s => if s ≠ "" then ["[이전 요약]\n" ++ s ++ "\n"] else []
    | none => []
  let body : List String :=
    msgs.map (fun m =>
      (if m.role == "human" then "사용자" else "프리렌") ++ ": " ++ m.content)
  String.intercalate "\n" (head ++ ["[새로운 대화]"] ++ body)

/-- The full `HumanMessage` content handed to the summarizer LLM in
`summarize_old_messages`. -/
def summarizeRequest (msgs : List MessageRow) (existing_summary : Option String) :
    String :=
  "다음 대화를 요약해주세요:\n\n" ++ format_messages_for_summary msgs existing_summary

/-- `MemoryManager.summarize_old_messages`: compaction.  Returns the
prior summary unchanged when nothing lies outside the recent window or
when the summarizer raises; otherwise strips the summarizer output,
persists it via `update_summary` and returns it. -/
def summarize_old_messages (cfg : MMConfig) (summ : Summarizer) (db : DB)
    (sid : String) : Option String × DB :=
  let existing := get_summary db sid
  let old := get_old_messages_for_summary db sid cfg.max_recent_messages
  if old.isEmpty then (existing, db)
  else
    match summ (summarizeRequest old existing) with
    | some out =>
      let new_summary := pyStrip out
      (some new_summary, update_summary db sid new_summary)
    | none => (existing, db)

/-- Role tagging of a stored message in `build_prompt_messages` step 5:
`human` rows become `HumanMessage`, everything else `AIMessage`. -/
def toPromptMessage (m : MessageRow) : PromptMessage :=
  if m.role == "human" then .human m.content else .ai m.content

/-- Step 4 of `build_prompt_messages`: the summary becomes a single
system entry iff it is truthy (`if summary:` — non-`None` and
non-empty). -/
def summaryEntries (summary : Option String) : List PromptMessage :=
  match summary with
  | some s => if s ≠ "" then [.system ("[이전 대화 요약]\n" ++ s)] else []
  | none => []

/-- `MemoryManager.build_prompt_messages`: run compaction when the
threshold is met, then assemble summary system entry (iff the stored
summary is truthy) + recent window (`get_messages` with
`limit=max_recent_messages`) + the new user message.  Also returns the
database state after the possible compaction. -/
def build_prompt_messages (cfg : MMConfig) (summ : Summarizer) (db : DB)
    (sid : String) (new_message : String) : List PromptMessage × DB :=
  let db1 := if should_summarize cfg db sid
             then (summarize_old_messages cfg summ db sid).2 else db
  let recent := get_messages db1 sid (some cfg.max_recent_messages) 0
  (summaryEntries (get_summary db1 sid) ++ recent.map toPromptMessage
    ++ [.human new_message], db1)

/-- `MemoryManager.save_conversation_turn`: append the user message then
the assistant message (each `add_message` reads `datetime.now()`
separately, hence the two timestamps). -/
def save_conversation_turn (db : DB) (sid user_message ai_response : String)
    (emotion_tag saturation_tag : Option String) (now1 now2 : Nat) : DB :=
  add_message (add_message db sid "human" user_message none none now1)
    sid "ai" ai_response emotion_tag saturation_tag now2

/-! ### vllm_client.generate_response -/

/-- The structured model output (`schemas.ChatResponse`). -/
structure ChatResp where
  response : String
  emotion_tag : Option String
  saturation_tag : Option String
deriving Repr, DecidableEq

/-- `schemas.ChatResponseWithSession`. -/
structure ChatRespWithSession where
  response : String
  emotion_tag : Option String
  saturation_tag : Option String
  session_id : String
deriving Repr, DecidableEq

/-- The static fallback text of `generate_response`'s `except` branch. -/
def FALLBACK_RESPONSE : String := "음... 마법이 실패한 것 같아. 다시 시도해볼까?"

/-- The chat model call (`structured_llm.ainvoke`); `none` models a
raised exception at the model invocation. -/
def ModelCall : Type := List PromptMessage → Option ChatResp

/-- `vllm_client.generate_response`.  The RAG context lookup and the
`FRIEREN_SYSTEM_PROMPT.format(...)` text are abstracted into the
`system_prompt` argument; the failure point modelled is the model
invocation itself.  On model failure the `except` branch returns the
static fallback with the already-resolved session id (the local
`session_id` was reassigned before the call, so the `is None` re-create
branch is not reachable from a model failure); the turn is saved only
after a successful model call. -/
def generate_response (cfg : MMConfig) (summ : Summarizer) (model : ModelCall)
    (db : DB) (user_message : String) (session_id : Option String)
    (freshId system_prompt : String) (nowCreate now1 now2 : Nat) :
    ChatRespWithSession × DB :=
  let r0 := get_or_create_session db session_id freshId nowCreate
  let r1 := build_prompt_messages cfg summ r0.2 r0.1 user_message
  let prompt := PromptMessage.system system_prompt :: r1.1
  match model prompt with
  | some resp =>
    ({ response := resp.response, emotion_tag := resp.emotion_tag,
       saturation_tag := resp.saturation_tag, session_id := r0.1 },
     save_conversation_turn r1.2 r0.1 user_message resp.response
       resp.emotion_tag resp.saturation_tag now1 now2)
  | none =>
    ({ response := FALLBACK_RESPONSE, emotion_tag := some "neutral",
       saturation_tag := some "0.1", session_id := r0.1 }, r1.2)

/-! ### Lemmas about the stable sorts -/

theorem insertAscBy_of_le (key : α → Nat) (x : α) (l : List α)
    (h : ∀ y ∈ l, key x ≤ key y) : insertAscBy key x l = x :: l := by
  cases l with
  | nil => rfl
  | cons y ys => simp [insertAscBy, h y (by simp)]

theorem sortAscBy_of_sorted (key : α → Nat) (l : List α)
    (h : l.Pairwise (fun a b => key a ≤ key b)) : sortAscBy key l = l := by
  induction l with
  | nil => rfl
  | cons x xs ih =>
    rcases List.pairwise_cons.mp h with ⟨hx, htail⟩
    rw [sortAscBy, ih htail, insertAscBy_of_le key x xs hx]

theorem insertAscBy_of_gt (key : α → Nat) (x : α) (l : List α)
    (h : ∀ y ∈ l, key y < key x) : insertAscBy key x l = l ++ [x] := by
  induction l with
  | nil => rfl
  | cons y ys ih =>
    have hy : ¬ key x ≤ key y := Nat.not_le.mpr (h y (by simp))
    simp [insertAscBy, hy, ih (fun z hz => h z (by simp [hz]))]

theorem sortAscBy_of_strict_desc (key : α → Nat) (l : List α)
    (h : l.Pairwise (fun a b => key b < key a)) : sortAscBy key l = l.reverse := by
  induction l with
  | nil => rfl
  | cons x xs ih =>
    rcases List.pairwise_cons.mp h with ⟨hx, htail⟩
    rw [sortAscBy, ih htail,
      insertAscBy_of_gt key x xs.reverse (fun y hy => hx y (List.mem_reverse.mp hy)),
      List.reverse_cons]

theorem insertDescBy_of_lt (key : α → Nat) (x : α) (l : List α)
    (h : ∀ y ∈ l, key x < key y) : insertDescBy key x l = l ++ [x] := by
  induction l with
  | nil => rfl
  | cons y ys ih =>
    have hy : ¬ key y ≤ key x := Nat.not_le.mpr (h y (by simp))
    simp [insertDescBy, hy, ih (fun z hz => h z (by simp [hz]))]

theorem sortDescBy_of_strict_asc (key : α → Nat) (l : List α)
    (h : l.Pairwise (fun a b => key a < key b)) : sortDescBy key l = l.reverse := by
  induction l with
  | nil => rfl
  | cons x xs ih =>
    rcases List.pairwise_cons.mp h with ⟨hx, htail⟩
    rw [sortDescBy, ih htail,
      insertDescBy_of_lt key x xs.reverse (fun y hy => hx y (List.mem_reverse.mp hy)),
      List.reverse_cons]

theorem insertAscBy_perm (key : α → Nat) (x : α) (l : List α) :
    (insertAscBy key x l).Perm (x :: l) := by
  induction l with
  | nil => exact List.Perm.refl _
  | cons y ys ih =>
    by_cases hc : key x ≤ key y
    · rw [insertAscBy, if_pos hc]
    · rw [insertAscBy, if_neg hc]
      exact (ih.cons y).trans (List.Perm.swap x y ys)

theorem sortAscBy_perm (key : α → Nat) (l : List α) : (sortAscBy key l).Perm l := by
  induction l with
  | nil => exact List.Perm.refl _
  | cons x xs ih => exact (insertAscBy_perm key x (sortAscBy key xs)).trans (ih.cons x)

theorem insertDescBy_perm (key : α → Nat) (x : α) (l : List α) :
    (insertDescBy key x l).Perm (x :: l) := by
  induction l with
  | nil => exact List.Perm.refl _
  | cons y ys ih =>
    by_cases hc : key y ≤ key x
    · rw [insertDescBy, if_pos hc]
    · rw [insertDescBy, if_neg hc]
      exact (ih.cons y).trans (List.Perm.swap x y ys)

theorem sortDescBy_perm (key : α → Nat) (l : List α) : (sortDescBy key l).Perm l := by
  induction l with
  | nil => exact List.Perm.refl _
  | cons x xs ih => exact (insertDescBy_perm key x (sortDescBy key xs)).trans (ih.cons x)

theorem mem_insertDescBy (key : α → Nat) (x : α) (l : List α) (a : α) :
    a ∈ insertDescBy key x l ↔ a = x ∨ a ∈ l := by
  rw [(insertDescBy_perm key x l).mem_iff]
  simp

theorem insertDescBy_sorted_ge (key : α → Nat) (x : α) (l : List α)
    (h : l.Pairwise (fun a b => key b ≤ key a)) :
    (insertDescBy key x l).Pairwise (fun a b => key b ≤ key a) := by
  induction l with
  | nil => simp [insertDescBy]
  | cons y ys ih =>
    rcases List.pairwise_cons.mp h with ⟨hy, htail⟩
    by_cases hc : key y ≤ key x
    · rw [insertDescBy, if_pos hc]
      refine List.pairwise_cons.mpr ⟨?_, h⟩
      intro b hb
      rcases List.mem_cons.mp hb with rfl | hb
      · exact hc
      · exact le_trans (hy b hb) hc
    · rw [insertDescBy, if_neg hc]
      refine List.pairwise_cons.mpr ⟨?_, ih htail⟩
      intro b hb
      rcases (mem_insertDescBy key x ys b).mp hb with rfl | hb
      · exact Nat.le_of_lt (Nat.lt_of_not_le hc)
      · exact hy b hb

theorem sortDescBy_sorted_ge (key : α → Nat) (l : List α) :
    (sortDescBy key l).Pairwise (fun a b => key b ≤ key a) := by
  induction l with
  | nil => simp [sortDescBy]
  | cons x xs ih => exact insertDescBy_sorted_ge key x (sortDescBy key xs) ih

/-! ### Invariance lemmas about the store operations -/

theorem messages_update_summary (db : DB) (sid t : String) :
    (update_summary db sid t).messages = db.messages := rfl

theorem messagesOf_update_summary (db : DB) (sid t x : String) :
    messagesOf (update_summary db sid t) x = messagesOf db x := rfl

theorem messages_summarize (cfg : MMConfig) (summ : Summarizer) (db : DB)
    (sid : String) : (summarize_old_messages cfg summ db sid).2.messages = db.messages := by
  unfold summarize_old_messages
  dsimp only
  split
  · rfl
  · split <;> rfl

theorem nextMessageId_summarize (cfg : MMConfig) (summ : Summarizer) (db : DB)
    (sid : String) :
    (summarize_old_messages cfg summ db sid).2.nextMessageId = db.nextMessageId := by
  unfold summarize_old_messages
  dsimp only
  split
  · rfl
  · split <;> rfl

theorem session_exists_update_summary (db : DB) (sid t x : String) :
    session_exists (update_summary db sid t) x = session_exists db x := by
  unfold session_exists update_summary
  rw [List.any_map]
  congr 1
  funext s
  by_cases hc : (s.id == sid) = true <;> simp [Function.comp, hc]

theorem session_exists_summarize (cfg : MMConfig) (summ : Summarizer) (db : DB)
    (sid x : String) :
    session_exists (summarize_old_messages cfg summ db sid).2 x = session_exists db x := by
  unfold summarize_old_messages
  dsimp only
  split
  · rfl
  · split
    · exact session_exists_update_summary db sid _ x
    · rfl

theorem messages_build (cfg : MMConfig) (summ : Summarizer) (db : DB)
    (sid msg : String) :
    (build_prompt_messages cfg summ db sid msg).2.messages = db.messages := by
  unfold build_prompt_messages
  split
  · exact messages_summarize cfg summ db sid
  · rfl

theorem nextMessageId_build (cfg : MMConfig) (summ : Summarizer) (db : DB)
    (sid msg : String) :
    (build_prompt_messages cfg summ db sid msg).2.nextMessageId = db.nextMessageId := by
  unfold build_prompt_messages
  split
  · exact nextMessageId_summarize cfg summ db sid
  · rfl

theorem session_exists_build (cfg : MMConfig) (summ : Summarizer) (db : DB)
    (sid msg x : String) :
    session_exists (build_prompt_messages cfg summ db sid msg).2 x
      = session_exists db x := by
  unfold build_prompt_messages
  split
  · exact session_exists_summarize cfg summ db sid x
  · rfl

theorem session_exists_create_self (db : DB) (newId : String) (now : Nat) :
    session_exists (create_session db newId now).2 newId = true := by
  simp [session_exists, create_session]

theorem session_exists_add_message (db : DB) (sid role content : String)
    (e s : Option String) (now : Nat) (x : String) :
    session_exists (add_message db sid role content e s now) x = session_exists db x := by
  unfold session_exists add_message
  rw [List.any_map]
  congr 1
  funext t
  by_cases hc : (t.id == sid) = true <;> simp [Function.comp, hc]

theorem messages_get_or_create (db : DB) (oid : Option String)
    (freshId : String) (now : Nat) :
    (get_or_create_session db oid freshId now).2.messages = db.messages := by
  unfold get_or_create_session
  split
  · split
    · split
      · rfl
      · rfl
    · rfl
  · rfl

theorem nextMessageId_get_or_create (db : DB) (oid : Option String)
    (freshId : String) (now : Nat) :
    (get_or_create_session db oid freshId now).2.nextMessageId = db.nextMessageId := by
  unfold get_or_create_session
  split
  · split
    · split
      · rfl
      · rfl
    · rfl
  · rfl

theorem session_exists_get_or_create (db : DB) (oid : Option String)
    (freshId : String) (now : Nat) :
    session_exists (get_or_create_session db oid freshId now).2
      (get_or_create_session db oid freshId now).1 = true := by
  unfold get_or_create_session
  split
  · split
    · split
      · next h => exact h
      · exact session_exists_create_self db freshId now
    · exact session_exists_create_self db freshId now
  · exact session_exists_create_self db freshId now

theorem messagesOf_build (cfg : MMConfig) (summ : Summarizer) (db : DB)
    (sid msg x : String) :
    messagesOf (build_prompt_messages cfg summ db sid msg).2 x = messagesOf db x := by
  unfold messagesOf
  rw [messages_build]

theorem get_old_update_summary (db : DB) (sid t x : String) (k : Nat) :
    get_old_messages_for_summary (update_summary db sid t) x k
      = get_old_messages_for_summary db x k := rfl

theorem update_summary_idem (db : DB) (sid t : String) :
    update_summary (update_summary db sid t) sid t = update_summary db sid t := by
  unfold update_summary
  simp only [List.map_map]
  congr 1
  apply List.map_congr_left
  intro s _
  by_cases hc : (s.id == sid) = true <;> simp [Function.comp, hc]

/-! ### The trailing-window behaviour of `get_messages` -/

theorem get_messages_none_eq (db : DB) (sid : String)
    (hmono : (messagesOf db sid).Pairwise (fun a b => a.created_at ≤ b.created_at)) :
    get_messages db sid none 0 = messagesOf db sid :=
  sortAscBy_of_sorted MessageRow.created_at _ hmono

theorem get_messages_limit_eq_drop (db : DB) (sid : String) (k : Nat) (hk : k ≠ 0)
    (hmono : (messagesOf db sid).Pairwise (fun a b => a.created_at < b.created_at)) :
    get_messages db sid (some k) 0
      = (messagesOf db sid).drop ((messagesOf db sid).length - k) := by
  rw [get_messages, if_pos hk,
    sortDescBy_of_strict_asc MessageRow.created_at _ hmono, List.drop_zero]
  have hrevp : (messagesOf db sid).reverse.Pairwise
      (fun a b => b.created_at < a.created_at) := List.pairwise_reverse.mpr hmono
  rw [sortAscBy_of_strict_desc MessageRow.created_at _
    (List.Pairwise.sublist (List.take_sublist k _) hrevp)]
  have h := @List.reverse_take MessageRow (messagesOf db sid).reverse k
  simpa using h

/-! ### Concrete store states used as test inputs -/

/-- Shorthand for a message row without annotations. -/
def mkMsg (i : Nat) (sid role content : String) (t : Nat) : MessageRow :=
  { id := i, session_id := sid, role := role, content := content,
    emotion_tag := none, saturation_tag := none, created_at := t }

/-- The empty store. -/
def db0 : DB := { sessions := [], messages := [], nextMessageId := 0 }

/-- One session holding two messages whose `created_at` coincide (the
clock did not tick between the two appends). -/
def dbTie : DB :=
  { sessions := [{ id := "s", created_at := 0, last_message_at := some 5, summary := none }],
    messages := [mkMsg 0 "s" "human" "first" 5, mkMsg 1 "s" "ai" "second" 5],
    nextMessageId := 2 }

/-- One session with 25 appended messages at strictly increasing
timestamps (scenario A). -/
def db25 : DB :=
  { sessions := [{ id := "s", created_at := 0, last_message_at := some 25, summary := none }],
    messages := (List.range 25).map (fun i =>
      mkMsg i "s" (if i % 2 == 0 then "human" else "ai") "m" (i + 1)),
    nextMessageId := 25 }

/-- A fresh session with 3 appended messages (scenario B). -/
def db3 : DB :=
  { sessions := [{ id := "s", created_at := 0, last_message_at := some 3, summary := none }],
    messages := [mkMsg 0 "s" "human" "a" 1, mkMsg 1 "s" "ai" "b" 2,
      mkMsg 2 "s" "human" "c" 3],
    nextMessageId := 3 }

/-- A store with a single session of id `"aaa"`. -/
def dbOne : DB :=
  { sessions := [{ id := "aaa", created_at := 0, last_message_at := none, summary := none }],
    messages := [], nextMessageId := 0 }

/-- The `MAX_RECENT_MESSAGES = 10`, `SUMMARIZE_THRESHOLD = 20` defaults. -/
def cfgA : MMConfig := { max_recent_messages := 10, summarize_threshold := 20 }

/-! ### Claim C2 -/

/-- **C2** (amended).  When the appended messages carry non-decreasing
`created_at` values, `get_messages` without a limit returns them in
exact append order; when the `created_at` values are strictly
increasing, `get_messages` with `limit=k` (`0 < k ≤ N`) returns exactly
the last `k` appended messages in chronological order.  The query orders
by `created_at` alone — no `id` tie-break appears in the SQL — so
coinciding timestamps void the trailing-window guarantee (see the
counterexample). -/
theorem get_messages_append_order (db : DB) (sid : String) :
    ((messagesOf db sid).Pairwise (fun a b => a.created_at ≤ b.created_at) →
      get_messages db sid none 0 = messagesOf db sid)
    ∧ ((messagesOf db sid).Pairwise (fun a b => a.created_at < b.created_at) →
      ∀ k, 0 < k → k ≤ (messagesOf db sid).length →
        get_messages db sid (some k) 0
          = (messagesOf db sid).drop ((messagesOf db sid).length - k)) :=
  ⟨fun h => get_messages_none_eq db sid h,
   fun h k hk _ => get_messages_limit_eq_drop db sid k (by omega) h⟩

/-- Witness for C2 on a session with 3 appended messages: the full
listing is the append order and `limit=2` returns the last two. -/
theorem get_messages_append_order_witness :
    get_messages db3 "s" none 0 = messagesOf db3 "s"
    ∧ get_messages db3 "s" (some 2) 0
      = (messagesOf db3 "s").drop ((messagesOf db3 "s").length - 2) := by
  have h := get_messages_append_order db3 "s"
  exact ⟨h.1 (by decide), h.2 (by decide) 2 (by decide) (by decide)⟩

/-- **C2** counterexample: two appends with the same `created_at`.
`get_messages(limit=1)` returns the *first* appended message, not the
last one — ties are not broken by `id`, and the limited query's window
is the wrong end of the log. -/
theorem get_messages_tie_counterexample :
    get_messages dbTie "s" (some 1) 0
      ≠ (messagesOf dbTie "s").drop ((messagesOf dbTie "s").length - 1)
    ∧ (get_messages dbTie "s" (some 1) 0).map MessageRow.content = ["first"]
    ∧ ((messagesOf dbTie "s").drop ((messagesOf dbTie "s").length - 1)).map
        MessageRow.content = ["second"] := by
  decide

/-! ### Claim C10 -/

/-- **C10**.  `get_messages` with `limit=0` takes Python's falsy branch
(`if limit:`), so it coincides with the no-limit call and returns the
session's entire message history — in particular it is non-empty
whenever the session has messages. -/
theorem get_messages_zero_limit (db : DB) (sid : String) :
    get_messages db sid (some 0) 0 = get_messages db sid none 0
    ∧ (messagesOf db sid ≠ [] → get_messages db sid (some 0) 0 ≠ []) := by
  refine ⟨rfl, fun h hc => h ?_⟩
  have hlen := (sortAscBy_perm MessageRow.created_at (messagesOf db sid)).length_eq
  have : get_messages db sid (some 0) 0
      = sortAscBy MessageRow.created_at (messagesOf db sid) := rfl
  rw [this] at hc
  rw [hc] at hlen
  exact List.length_eq_zero.mp hlen.symm

/-- Witness for C10: `limit=0` on a populated session equals the
unlimited call and is non-empty. -/
theorem get_messages_zero_limit_witness :
    get_messages dbTie "s" (some 0) 0 = get_messages dbTie "s" none 0
    ∧ get_messages dbTie "s" (some 0) 0 ≠ [] := by
  have h := get_messages_zero_limit dbTie "s"
  exact ⟨h.1, h.2 (by decide)⟩

/-! ### Claim C6 -/

/-- **C6**.  Deleting an existing session returns `true`, afterwards the
session no longer exists and no message of it remains retrievable (the
message rows are deleted together with the session row in the same
transaction), and a second delete of the same id returns `false`. -/
theorem delete_session_spec (db : DB) (sid : String)
    (h : session_exists db sid = true) :
    (delete_session db sid).1 = true
    ∧ session_exists (delete_session db sid).2 sid = false
    ∧ messagesOf (delete_session db sid).2 sid = []
    ∧ get_messages (delete_session db sid).2 sid none 0 = []
    ∧ (delete_session (delete_session db sid).2 sid).1 = false := by
  have h2 : session_exists (delete_session db sid).2 sid = false := by
    simp [session_exists, delete_session, List.any_filter]
  have h3 : messagesOf (delete_session db sid).2 sid = [] := by
    simp [messagesOf, delete_session, List.filter_filter]
  refine ⟨h, h2, h3, ?_, h2⟩
  show sortAscBy MessageRow.created_at (messagesOf (delete_session db sid).2 sid) = []
  rw [h3]
  rfl

/-- Witness for C6 at a concrete populated store. -/
theorem delete_session_spec_witness :
    (delete_session dbTie "s").1 = true
    ∧ session_exists (delete_session dbTie "s").2 "s" = false
    ∧ messagesOf (delete_session dbTie "s").2 "s" = []
    ∧ get_messages (delete_session dbTie "s").2 "s" none 0 = []
    ∧ (delete_session (delete_session dbTie "s").2 "s").1 = false :=
  delete_session_spec dbTie "s" (by decide)

/-! ### Claim C9 -/

/-- **C9** (amended).  For a non-existent session id the store does not
fail: `update_summary` completes normally as a silent no-op (the SQL
UPDATE matches no row), and `add_message` never causes the session to
come into existence (`session_exists` stays false afterwards) — though
it does insert an orphan message row, since SQLite foreign keys are off
by default. -/
theorem missing_session_store_ops (db : DB) (sid role content t : String)
    (e s2 : Option String) (now : Nat)
    (h : session_exists db sid = false) :
    update_summary db sid t = db
    ∧ session_exists (add_message db sid role content e s2 now) sid = false := by
  have hall : ∀ s ∈ db.sessions, (s.id == sid) = false := by
    intro s hs
    cases hc : (s.id == sid) with
    | false => rfl
    | true =>
      exfalso
      have : session_exists db sid = true := List.any_eq_true.mpr ⟨s, hs, hc⟩
      rw [h] at this
      cases this
  constructor
  · have hmap : db.sessions.map
        (fun s => if s.id == sid then { s with summary := some t } else s)
        = db.sessions.map id :=
      List.map_congr_left (fun s hs => by simp [hall s hs])
    rw [update_summary, hmap, List.map_id]
  · rw [session_exists_add_message]
    exact h

/-- Witness for C9 at the empty store. -/
theorem missing_session_store_ops_witness :
    update_summary db0 "missing" "text" = db0
    ∧ session_exists (add_message db0 "missing" "human" "hi" none none 7) "missing"
      = false :=
  missing_session_store_ops db0 "missing" "human" "hi" "text" none none 7 (by decide)

/-- **C9** counterexample: `update_summary` on an id that does not exist
completes normally and leaves the store untouched — it does not fail
with `NotFound` (the source code contains no existence check and the
no-match UPDATE is not an error). -/
theorem update_summary_missing_noop_counterexample :
    session_exists db0 "ghost" = false
    ∧ update_summary db0 "ghost" "text" = db0 := by
  decide

/-! ### Claim C5 -/

/-- **C5**.  `get_or_create_session`: with no id, or with an id that does
not exist in the store, a new session is created whose id (the fresh
uuid, hypothesised distinct from the supplied id as `uuid4` guarantees
up to collision) differs from the supplied one and exists afterwards;
a supplied non-empty id that exists is returned unchanged with the
store untouched.  No branch fails.  (Ids minted by `create_session` are
`uuid4` strings, never empty, so the `s ≠ ""` proviso of the reuse
branch is vacuous in reachable stores; Python's `if session_id:` treats
`""` as absent.) -/
theorem get_or_create_session_spec (db : DB) (freshId : String) (now : Nat) :
    ((get_or_create_session db none freshId now).1 = freshId
      ∧ session_exists (get_or_create_session db none freshId now).2 freshId = true)
    ∧ (∀ s, session_exists db s = false → freshId ≠ s →
        (get_or_create_session db (some s) freshId now).1 = freshId
        ∧ (get_or_create_session db (some s) freshId now).1 ≠ s
        ∧ session_exists (get_or_create_session db (some s) freshId now).2
            (get_or_create_session db (some s) freshId now).1 = true)
    ∧ (∀ s, s ≠ "" → session_exists db s = true →
        get_or_create_session db (some s) freshId now = (s, db)) := by
  refine ⟨⟨rfl, session_exists_create_self db freshId now⟩, ?_, ?_⟩
  · intro s hs hne
    have hcase : get_or_create_session db (some s) freshId now
        = create_session db freshId now := by
      by_cases he : s = ""
      · simp [get_or_create_session, he]
      · simp [get_or_create_session, he, hs]
    rw [hcase]
    exact ⟨rfl, hne, session_exists_create_self db freshId now⟩
  · intro s hne hex
    simp [get_or_create_session, hne, hex]

/-- Witness for C5: unknown and known supplied ids on a one-session
store. -/
theorem get_or_create_session_spec_witness :
    (get_or_create_session dbOne none "fresh-id" 9).1 = "fresh-id"
    ∧ (get_or_create_session dbOne (some "unknown") "fresh-id" 9).1 ≠ "unknown"
    ∧ session_exists (get_or_create_session dbOne (some "unknown") "fresh-id" 9).2
        (get_or_create_session dbOne (some "unknown") "fresh-id" 9).1 = true
    ∧ get_or_create_session dbOne (some "aaa") "fresh-id" 9 = ("aaa", dbOne) := by
  obtain ⟨h1, h2, h3⟩ := get_or_create_session_spec dbOne "fresh-id" 9
  have hu := h2 "unknown" (by decide) (by decide)
  exact ⟨h1.1, hu.2.1, hu.2.2, h3 "aaa" (by decide) (by decide)⟩

/-! ### Claim C3 -/

/-- **C3**.  When the summarizer raises on every call, compaction is
abandoned: `summarize_old_messages` returns the prior summary and
leaves the store untouched, `build_prompt_messages` completes normally
(no error can propagate — the embedding is total and the `except`
branch returns the prior summary), and arbitrarily many repeated
compaction attempts leave the store, hence the stored summary,
unchanged. -/
theorem summarizer_failure_preserves_summary (cfg : MMConfig) (summ : Summarizer)
    (db : DB) (sid msg : String) (hfail : ∀ t, summ t = none) :
    summarize_old_messages cfg summ db sid = (get_summary db sid, db)
    ∧ (build_prompt_messages cfg summ db sid msg).2 = db
    ∧ ∀ n, (fun d => (build_prompt_messages cfg summ d sid msg).2)^[n] db = db := by
  have h1 : summarize_old_messages cfg summ db sid = (get_summary db sid, db) := by
    unfold summarize_old_messages
    dsimp only
    split
    · rfl
    · rw [hfail]
  have h2 : (build_prompt_messages cfg summ db sid msg).2 = db := by
    unfold build_prompt_messages
    dsimp only
    split
    · rw [h1]
    · rfl
  exact ⟨h1, h2, fun n => Function.iterate_fixed h2 n⟩

/-- Witness for C3 on a session past the threshold (the failing
summarizer path is actually exercised), iterated three times. -/
theorem summarizer_failure_preserves_summary_witness :
    summarize_old_messages cfgA (fun _ => none) db25 "s" = (get_summary db25 "s", db25)
    ∧ (fun d => (build_prompt_messages cfgA (fun _ => none) d "s" "hi").2)^[3] db25
      = db25 := by
  have h := summarizer_failure_preserves_summary cfgA (fun _ => none) db25 "s" "hi"
    (fun t => rfl)
  exact ⟨h.1, h.2.2 3⟩

/-! ### Claim C7 -/

/-- **C7** (amended).  Running compaction twice in immediate succession
with no new messages yields the same result (same returned summary and
same store) *provided* the summarizer's output does not depend on the
prior-summary section of its input.  Determinism alone does not give
this: the second run feeds the first run's output back into the
summarizer inside the `[이전 요약]` block, so its input differs — see the
counterexample. -/
theorem compaction_stable_of_insensitive_summarizer (cfg : MMConfig)
    (summ : Summarizer) (db : DB) (sid : String)
    (hins : ∀ o1 o2 : Option String,
      summ (summarizeRequest
        (get_old_messages_for_summary db sid cfg.max_recent_messages) o1)
      = summ (summarizeRequest
        (get_old_messages_for_summary db sid cfg.max_recent_messages) o2)) :
    summarize_old_messages cfg summ (summarize_old_messages cfg summ db sid).2 sid
      = summarize_old_messages cfg summ db sid := by
  cases hemp : (get_old_messages_for_summary db sid cfg.max_recent_messages).isEmpty with
  | true =>
    have h1 : summarize_old_messages cfg summ db sid = (get_summary db sid, db) := by
      unfold summarize_old_messages
      dsimp only
      rw [hemp]
      simp
    rw [h1]
    exact h1
  | false =>
    cases hs : summ (summarizeRequest
        (get_old_messages_for_summary db sid cfg.max_recent_messages)
        (get_summary db sid)) with
    | none =>
      have h1 : summarize_old_messages cfg summ db sid = (get_summary db sid, db) := by
        unfold summarize_old_messages
        dsimp only
        rw [hemp, hs]
        simp
      rw [h1]
      exact h1
    | some out =>
      have h1 : summarize_old_messages cfg summ db sid
          = (some (pyStrip out), update_summary db sid (pyStrip out)) := by
        unfold summarize_old_messages
        dsimp only
        rw [hemp, hs]
        simp
      have hold : get_old_messages_for_summary
          (update_summary db sid (pyStrip out)) sid cfg.max_recent_messages
          = get_old_messages_for_summary db sid cfg.max_recent_messages := rfl
      have hs2 : summ (summarizeRequest
          (get_old_messages_for_summary db sid cfg.max_recent_messages)
          (get_summary (update_summary db sid (pyStrip out)) sid)) = some out :=
        (hins _ _).trans hs
      rw [h1]
      show summarize_old_messages cfg summ (update_summary db sid (pyStrip out)) sid
        = (some (pyStrip out), update_summary db sid (pyStrip out))
      unfold summarize_old_messages
      dsimp only
      rw [hold, hemp, hs2]
      dsimp only
      rw [update_summary_idem]
      simp

/-- Witness for C7: a prior-summary-insensitive (constant, hence
deterministic) summarizer on a session past the threshold;
recompaction changes nothing. -/
theorem compaction_stable_witness :
    summarize_old_messages cfgA (fun _ => some "요약")
        (summarize_old_messages cfgA (fun _ => some "요약") db25 "s").2 "s"
      = summarize_old_messages cfgA (fun _ => some "요약") db25 "s" :=
  compaction_stable_of_insensitive_summarizer cfgA (fun _ => some "요약") db25 "s"
    (fun _ _ => rfl)

/-- **C7** counterexample: with the identity summarizer — a pure,
deterministic function — running compaction twice in immediate
succession with no new messages changes the stored summary text: the
second run's input embeds the first run's output in its `[이전 요약]`
block, so the produced text drifts. -/
theorem compaction_reapply_drift_counterexample :
    (summarize_old_messages ⟨1, 0⟩ (fun t => some t)
        (summarize_old_messages ⟨1, 0⟩ (fun t => some t) dbTie "s").2 "s").1
      ≠ (summarize_old_messages ⟨1, 0⟩ (fun t => some t) dbTie "s").1
    ∧ get_summary (summarize_old_messages ⟨1, 0⟩ (fun t => some t)
        (summarize_old_messages ⟨1, 0⟩ (fun t => some t) dbTie "s").2 "s").2 "s"
      ≠ get_summary (summarize_old_messages ⟨1, 0⟩ (fun t => some t) dbTie "s").2 "s" := by
  decide

/-! ### Claim C8 -/

/-- Session rows used by the `list_sessions` counterexample: identical
timestamps, different ids. -/
def sessA : SessionRow := { id := "a", created_at := 5, last_message_at := none, summary := none }

/-- See `sessA`. -/
def sessB : SessionRow := { id := "b", created_at := 5, last_message_at := none, summary := none }

/-- Store holding `sessA` then `sessB`. -/
def dbAB : DB := { sessions := [sessA, sessB], messages := [], nextMessageId := 0 }

/-- Store holding the same two sessions in the opposite insertion
order. -/
def dbBA : DB := { sessions := [sessB, sessA], messages := [], nextMessageId := 0 }

/-- **C8** (amended).  `list_sessions` returns all sessions (a
permutation of the table) ordered descending by
`coalesce(last_message_at, created_at)`; for the two-session scenario —
A never messaged, B created later and messaged once, so B's activity
key exceeds A's creation key — the result is `[B, A]`.  The query has
no `session_id` tie-break: equal keys keep table order (see the
counterexample). -/
theorem list_sessions_ordering (db : DB) (s1 s2 : SessionRow) (m : MessageRow)
    (nid : Nat) (hlt : coalesceKey s1 < coalesceKey s2) (hid : s1.id ≠ s2.id)
    (hm : m.session_id = s2.id) :
    ((list_sessions db).map Prod.fst).Perm db.sessions
    ∧ (list_sessions db).Pairwise (fun p q => coalesceKey q.1 ≤ coalesceKey p.1)
    ∧ list_sessions { sessions := [s1, s2], messages := [m], nextMessageId := nid }
      = [(s2, 1), (s1, 0)] := by
  refine ⟨?_, ?_, ?_⟩
  · rw [list_sessions, List.map_map]
    have hcomp : (Prod.fst ∘ fun s : SessionRow => (s, get_message_count db s.id)) = id := rfl
    rw [hcomp, List.map_id]
    exact sortDescBy_perm coalesceKey db.sessions
  · rw [list_sessions, List.pairwise_map]
    exact sortDescBy_sorted_ge coalesceKey db.sessions
  · have hnotle : ¬ coalesceKey s2 ≤ coalesceKey s1 := Nat.not_le.mpr hlt
    have hid2 : (m.session_id == s1.id) = false := by
      rw [hm]
      exact beq_eq_false_iff_ne.mpr (Ne.symm hid)
    have hid3 : (m.session_id == s2.id) = true := by
      rw [hm]
      exact beq_self_eq_true s2.id
    simp [list_sessions, sortDescBy, insertDescBy, hnotle, get_message_count,
      messagesOf, hid2, hid3]

/-- Witness for C8: scenario C with concrete rows — A created at 1 and
never messaged, B created at 2 with one message at 3; the listing is
`[B, A]` with the message counts 1 and 0. -/
theorem list_sessions_ordering_witness :
    list_sessions
        { sessions := [{ id := "A", created_at := 1, last_message_at := none, summary := none },
                       { id := "B", created_at := 2, last_message_at := some 3, summary := none }],
          messages := [mkMsg 0 "B" "human" "hi" 3], nextMessageId := 1 }
      = [({ id := "B", created_at := 2, last_message_at := some 3, summary := none }, 1),
         ({ id := "A", created_at := 1, last_message_at := none, summary := none }, 0)] :=
  (list_sessions_ordering db0
    { id := "A", created_at := 1, last_message_at := none, summary := none }
    { id := "B", created_at := 2, last_message_at := some 3, summary := none }
    (mkMsg 0 "B" "human" "hi" 3) 1 (by decide) (by decide) (by decide)).2.2

/-- **C8** counterexample: two stores holding the same session rows (a
permutation) with equal ordering keys produce *different* listings —
the order depends on insertion order, so no `session_id` tie-break is
applied for equal timestamps. -/
theorem list_sessions_tie_counterexample :
    dbAB.sessions.Perm dbBA.sessions
    ∧ coalesceKey sessA = coalesceKey sessB
    ∧ list_sessions dbAB ≠ list_sessions dbBA := by
  decide

/-! ### Claim C4 -/

/-- **C4**.  If the model invocation raises, `generate_response` does
not propagate the exception: it returns the static fallback text with a
session id that exists in the returned store, and no message row is
appended (no dangling user message).  The user/assistant pair is
recorded only once the model call succeeds: on success exactly the two
rows of the turn are appended. -/
theorem model_failure_fallback (cfg : MMConfig) (summ : Summarizer)
    (model : ModelCall) (db : DB) (user_message : String)
    (session_id : Option String) (freshId system_prompt : String)
    (nowCreate now1 now2 : Nat) (hmodel : ∀ p, model p = none) :
    (generate_response cfg summ model db user_message session_id freshId
        system_prompt nowCreate now1 now2).1.response = FALLBACK_RESPONSE
    ∧ session_exists
        (generate_response cfg summ model db user_message session_id freshId
          system_prompt nowCreate now1 now2).2
        (generate_response cfg summ model db user_message session_id freshId
          system_prompt nowCreate now1 now2).1.session_id = true
    ∧ (generate_response cfg summ model db user_message session_id freshId
        system_prompt nowCreate now1 now2).2.messages = db.messages
    ∧ ∀ (model2 : ModelCall) (r : ChatResp), (∀ p, model2 p = some r) →
        (generate_response cfg summ model2 db user_message session_id freshId
            system_prompt nowCreate now1 now2).2.messages
          = db.messages
            ++ [{ id := db.nextMessageId,
                  session_id := (get_or_create_session db session_id freshId nowCreate).1,
                  role := "human", content := user_message, emotion_tag := none,
                  saturation_tag := none, created_at := now1 },
                { id := db.nextMessageId + 1,
                  session_id := (get_or_create_session db session_id freshId nowCreate).1,
                  role := "ai", content := r.response, emotion_tag := r.emotion_tag,
                  saturation_tag := r.saturation_tag, created_at := now2 }] := by
  have hGen : generate_response cfg summ model db user_message session_id freshId
      system_prompt nowCreate now1 now2
      = ({ response := FALLBACK_RESPONSE, emotion_tag := some "neutral",
           saturation_tag := some "0.1",
           session_id := (get_or_create_session db session_id freshId nowCreate).1 },
         (build_prompt_messages cfg summ
            (get_or_create_session db session_id freshId nowCreate).2
            (get_or_create_session db session_id freshId nowCreate).1 user_message).2) := by
    unfold generate_response
    dsimp only
    rw [hmodel]
  refine ⟨?_, ?_, ?_, ?_⟩
  · rw [hGen]
  · rw [hGen]
    show session_exists (build_prompt_messages cfg summ
        (get_or_create_session db session_id freshId nowCreate).2
        (get_or_create_session db session_id freshId nowCreate).1 user_message).2
      (get_or_create_session db session_id freshId nowCreate).1 = true
    rw [session_exists_build]
    exact session_exists_get_or_create db session_id freshId nowCreate
  · rw [hGen]
    show (build_prompt_messages cfg summ
        (get_or_create_session db session_id freshId nowCreate).2
        (get_or_create_session db session_id freshId nowCreate).1 user_message).2.messages
      = db.messages
    rw [messages_build, messages_get_or_create]
  · intro model2 r hm2
    have hGen2 : generate_response cfg summ model2 db user_message session_id freshId
        system_prompt nowCreate now1 now2
        = ({ response := r.response, emotion_tag := r.emotion_tag,
             saturation_tag := r.saturation_tag,
             session_id := (get_or_create_session db session_id freshId nowCreate).1 },
           save_conversation_turn
             (build_prompt_messages cfg summ
                (get_or_create_session db session_id freshId nowCreate).2
                (get_or_create_session db session_id freshId nowCreate).1 user_message).2
             (get_or_create_session db session_id freshId nowCreate).1
             user_message r.response r.emotion_tag r.saturation_tag now1 now2) := by
      unfold generate_response
      dsimp only
      rw [hm2]
    rw [hGen2]
    show (save_conversation_turn _ _ _ _ _ _ _ _).messages = _
    unfold save_conversation_turn add_message
    dsimp only
    rw [messages_build, messages_get_or_create, nextMessageId_build,
      nextMessageId_get_or_create, List.append_assoc]
    rfl

/-- Witness for C4: failing model on the empty store with no supplied
id — fallback text, existing session, no appended messages; and the
success case appends exactly the turn's two rows. -/
theorem model_failure_fallback_witness :
    (generate_response cfgA (fun _ => some "S") (fun _ => none) db0 "hello" none
        "fresh" "sys" 1 2 3).1.response = FALLBACK_RESPONSE
    ∧ session_exists
        (generate_response cfgA (fun _ => some "S") (fun _ => none) db0 "hello" none
          "fresh" "sys" 1 2 3).2
        (generate_response cfgA (fun _ => some "S") (fun _ => none) db0 "hello" none
          "fresh" "sys" 1 2 3).1.session_id = true
    ∧ (generate_response cfgA (fun _ => some "S") (fun _ => none) db0 "hello" none
        "fresh" "sys" 1 2 3).2.messages = db0.messages
    ∧ (generate_response cfgA (fun _ => some "S")
          (fun _ => some { response := "ok", emotion_tag := none, saturation_tag := none })
          db0 "hello" none "fresh" "sys" 1 2 3).2.messages
      = db0.messages
        ++ [{ id := db0.nextMessageId,
              session_id := (get_or_create_session db0 none "fresh" 1).1,
              role := "human", content := "hello", emotion_tag := none,
              saturation_tag := none, created_at := 2 },
            { id := db0.nextMessageId + 1,
              session_id := (get_or_create_session db0 none "fresh" 1).1,
              role := "ai", content := "ok", emotion_tag := none,
              saturation_tag := none, created_at := 3 }] := by
  have h := model_failure_fallback cfgA (fun _ => some "S") (fun _ => none) db0
    "hello" none "fresh" "sys" 1 2 3 (fun _ => rfl)
  exact ⟨h.1, h.2.1, h.2.2.1,
    h.2.2.2 (fun _ => some { response := "ok", emotion_tag := none, saturation_tag := none })
      { response := "ok", emotion_tag := none, saturation_tag := none } (fun _ => rfl)⟩

/-! ### Claim C1 -/

theorem build_unfold (cfg : MMConfig) (summ : Summarizer) (db : DB)
    (sid msg : String) :
    build_prompt_messages cfg summ db sid msg
      = (summaryEntries (get_summary (build_prompt_messages cfg summ db sid msg).2 sid)
          ++ (get_messages (build_prompt_messages cfg summ db sid msg).2 sid
                (some cfg.max_recent_messages) 0).map toPromptMessage
          ++ [.human msg],
         (build_prompt_messages cfg summ db sid msg).2) := rfl

/-- **C1** (amended).  With `maxRecent ≥ 1` and strictly increasing
message timestamps, `build_prompt_messages` returns: the summary system
entry (a single entry iff the post-compaction stored summary is
non-empty, none otherwise), then the trailing
`min(messageCount, maxRecent)` stored messages in chronological order in
their role-tagged form, then the new user message last; the total length
is the summary-entry count plus `min(messageCount, maxRecent)` plus 1
(scenario A: 1 + 10 + 1 = 12; scenario B: 0 + 3 + 1 = 4 — see the
witness).  Coinciding timestamps void the trailing-window part, because
the recent window is fetched ordered by `created_at` alone (see the
counterexample). -/
theorem build_context_window_shape (cfg : MMConfig) (summ : Summarizer) (db : DB)
    (sid new_message : String) (hmax : 0 < cfg.max_recent_messages)
    (hmono : (messagesOf db sid).Pairwise (fun a b => a.created_at < b.created_at)) :
    (build_prompt_messages cfg summ db sid new_message).2
      = (if should_summarize cfg db sid
         then (summarize_old_messages cfg summ db sid).2 else db)
    ∧ (build_prompt_messages cfg summ db sid new_message).1
      = summaryEntries
          (get_summary (build_prompt_messages cfg summ db sid new_message).2 sid)
        ++ ((messagesOf db sid).drop
              ((messagesOf db sid).length - cfg.max_recent_messages)).map toPromptMessage
        ++ [PromptMessage.human new_message]
    ∧ (build_prompt_messages cfg summ db sid new_message).1.length
      = (summaryEntries
          (get_summary (build_prompt_messages cfg summ db sid new_message).2 sid)).length
        + min (messagesOf db sid).length cfg.max_recent_messages + 1
    ∧ ∀ o : Option String, summaryEntries o ≠ [] ↔ ∃ s, o = some s ∧ s ≠ "" := by
  have hmsgs : messagesOf (build_prompt_messages cfg summ db sid new_message).2 sid
      = messagesOf db sid := messagesOf_build cfg summ db sid new_message sid
  have hmono2 : (messagesOf (build_prompt_messages cfg summ db sid new_message).2
      sid).Pairwise (fun a b => a.created_at < b.created_at) := by
    rw [hmsgs]
    exact hmono
  have hwin : get_messages (build_prompt_messages cfg summ db sid new_message).2 sid
      (some cfg.max_recent_messages) 0
      = (messagesOf db sid).drop
          ((messagesOf db sid).length - cfg.max_recent_messages) := by
    have h := get_messages_limit_eq_drop
      (build_prompt_messages cfg summ db sid new_message).2 sid
      cfg.max_recent_messages (by omega) hmono2
    rwa [hmsgs] at h
  have h2 : (build_prompt_messages cfg summ db sid new_message).1
      = summaryEntries
          (get_summary (build_prompt_messages cfg summ db sid new_message).2 sid)
        ++ ((messagesOf db sid).drop
              ((messagesOf db sid).length - cfg.max_recent_messages)).map toPromptMessage
        ++ [PromptMessage.human new_message] := by
    have h := congrArg Prod.fst (build_unfold cfg summ db sid new_message)
    rw [hwin] at h
    exact h
  refine ⟨rfl, h2, ?_, ?_⟩
  · rw [h2]
    simp only [List.length_append, List.length_map, List.length_drop,
      List.length_singleton]
    omega
  · intro o
    cases o with
    | none => simp [summaryEntries]
    | some s =>
      by_cases hs : s = "" <;> simp [summaryEntries, hs]

/-- Witness for C1: scenario A (25 appended messages, threshold 20,
window 10, summarizer succeeding with the non-empty text `요약`) yields
12 entries; scenario B (fresh session, 3 appended messages) yields 4
entries and no summary entry. -/
theorem build_context_window_shape_witness :
    (build_prompt_messages cfgA (fun _ => some "요약") db25 "s" "new").1.length
      = (summaryEntries
          (get_summary (build_prompt_messages cfgA (fun _ => some "요약") db25 "s" "new").2 "s")).length
        + min (messagesOf db25 "s").length cfgA.max_recent_messages + 1
    ∧ (build_prompt_messages cfgA (fun _ => some "요약") db25 "s" "new").1.length = 12
    ∧ (build_prompt_messages cfgA (fun _ => some "요약") db3 "s" "hi").1.length = 4
    ∧ summaryEntries
        (get_summary (build_prompt_messages cfgA (fun _ => some "요약") db3 "s" "hi").2 "s")
      = [] := by
  have hA := build_context_window_shape cfgA (fun _ => some "요약") db25 "s" "new"
    (by decide) (by decide)
  have hB := build_context_window_shape cfgA (fun _ => some "요약") db3 "s" "hi"
    (by decide) (by decide)
  exact ⟨hA.2.2.1, hA.2.2.1.trans (by decide), hB.2.2.1.trans (by decide), by decide⟩

/-- **C1** counterexample: with `maxRecent = 1` and two stored messages
whose timestamps coincide, the assembled context's middle segment is
the *first* stored message, not the trailing one the claim requires. -/
theorem build_context_tie_counterexample :
    (build_prompt_messages { max_recent_messages := 1, summarize_threshold := 100 }
        (fun _ => some "S") dbTie "s" "new").1
      = [PromptMessage.human "first", PromptMessage.human "new"]
    ∧ ((messagesOf dbTie "s").drop ((messagesOf dbTie "s").length - 1)).map
        toPromptMessage
      = [PromptMessage.ai "second"] := by
  decide

end ChatBot
